import Mathlib

/-!
# CODEOWNERS remediation tool (`main.go`)

A shallow embedding of `processRepository` and of the batch loop of `main`.

* Go strings are byte sequences (`GoString`).
* The GitHub client is an external collaborator: it is a record of six
  operations over an arbitrary world state `σ`, each returning what the
  go-github call returns (pointer results are `Option`s, `err` is
  `Option GoError`) together with the next world state.
* Every run records the API operations it invoked, in order, each with the
  flag `err != nil`.
* Run-time panics of the Go code (slice out of range, nil dereference) are
  an outcome of their own.
-/

namespace CodeownersTool

/-! ## Go strings and the library functions used by the source -/

/-- A Go `string`: a sequence of bytes. -/
abbrev GoString := List UInt8

/-- The text of a Go `error` value, as `%v` and `Println` render it. -/
abbrev GoError := GoString

/-- The bytes of a string literal of the source (Go source text is UTF-8). -/
def str (s : String) : GoString := s.toUTF8.data.toList

/-- The separator byte of the literal `"/"`. -/
def slash : UInt8 := 47

/-- Helper of `stringsSplit`: the first segment of `s` and the segments after it. -/
def splitSegments (sep : UInt8) : GoString → GoString × List GoString
  | [] => ([], [])
  | b :: rest =>
    if b = sep then ([], (splitSegments sep rest).1 :: (splitSegments sep rest).2)
    else (b :: (splitSegments sep rest).1, (splitSegments sep rest).2)

/-- Go `strings.Split(s, sep)` for a one-byte separator: the substrings
between the separators, `Count(s, sep) + 1` of them. -/
def stringsSplit (s : GoString) (sep : UInt8) : List GoString :=
  (splitSegments sep s).1 :: (splitSegments sep s).2

/-- Go slice expression `s[:n]` on a string: the first `n` bytes, and a
run-time panic (`none`) when `n > len(s)`. -/
def sliceTo (s : GoString) (n : Nat) : Option GoString :=
  if n ≤ s.length then some (s.take n) else none

/-! ## go-github data, as far as the source reads or builds it -/

/-- The `*github.Response` field the source reads. -/
structure Response where
  StatusCode : Int
  deriving DecidableEq, Repr

/-- The `github.Repository` field the source reads. -/
structure Repository where
  DefaultBranch : Option GoString
  deriving DecidableEq, Repr

/-- The `github.GitObject` field the source reads. -/
structure GitObject where
  SHA : Option GoString
  deriving DecidableEq, Repr

/-- The `github.Reference` field the source reads. -/
structure Reference where
  Object : Option GitObject
  deriving DecidableEq, Repr

/-- The `github.PullRequest` field the source reads. -/
structure PullRequest where
  HTMLURL : Option GoString
  deriving DecidableEq, Repr

/-- go-github accessor `(*Repository).GetDefaultBranch`: the empty string
for a nil receiver or a nil field. -/
def GetDefaultBranch : Option Repository → GoString
  | some r => match r.DefaultBranch with
    | some b => b
    | none => []
  | none => []

/-- go-github accessor `(*Reference).GetObject`: nil for a nil receiver. -/
def GetObject : Option Reference → Option GitObject
  | some r => r.Object
  | none => none

/-- go-github accessor `(*GitObject).GetSHA`: the empty string for a nil
receiver or a nil field. -/
def GetSHA : Option GitObject → GoString
  | some o => match o.SHA with
    | some s => s
    | none => []
  | none => []

/-! ## The API client and the record of a run -/

/-- An API operation together with the arguments the source passes to it. -/
inductive Call where
  | getContents (owner repo path : GoString)
  | getRepository (owner repo : GoString)
  | getRef (owner repo ref : GoString)
  | createRef (owner repo ref sha : GoString)
  | createFile (owner repo path message content branch : GoString)
  | createPullRequest (owner repo title head base body : GoString)
  deriving DecidableEq, Repr

/-- The owner argument of an API operation. -/
def Call.owner : Call → GoString
  | .getContents o _ _ => o
  | .getRepository o _ => o
  | .getRef o _ _ => o
  | .createRef o _ _ _ => o
  | .createFile o _ _ _ _ _ => o
  | .createPullRequest o _ _ _ _ _ => o

/-- The repository-name argument of an API operation. -/
def Call.repo : Call → GoString
  | .getContents _ r _ => r
  | .getRepository _ r => r
  | .getRef _ r _ => r
  | .createRef _ r _ _ => r
  | .createFile _ r _ _ _ _ => r
  | .createPullRequest _ r _ _ _ _ => r

/-- The six API operations the source invokes. -/
inductive Op where
  | getContents
  | getRepository
  | getRef
  | createRef
  | createFile
  | createPullRequest
  deriving DecidableEq, Repr

/-- Which operation a call invokes. -/
def Call.op : Call → Op
  | .getContents _ _ _ => .getContents
  | .getRepository _ _ => .getRepository
  | .getRef _ _ _ => .getRef
  | .createRef _ _ _ _ => .createRef
  | .createFile _ _ _ _ _ _ => .createFile
  | .createPullRequest _ _ _ _ _ _ => .createPullRequest

/-- Whether the operation creates something on the remote side. -/
def Call.isCreate : Call → Bool
  | .createRef _ _ _ _ => true
  | .createFile _ _ _ _ _ _ => true
  | .createPullRequest _ _ _ _ _ _ => true
  | _ => false

/-- One invoked API operation and whether it returned `err != nil`. -/
structure Event where
  call : Call
  failed : Bool
  deriving DecidableEq, Repr

/-- The external hosting API seen through `*github.Client`: each operation
takes the current world state and its arguments and gives the values the
go-github call returns and the next world state. -/
structure Client (σ : Type) where
  /-- `client.Repositories.GetContents(ctx, owner, repo, path, nil)`: `resp` and `err`. -/
  getContents : σ → GoString → GoString → GoString → (Option Response × Option GoError) × σ
  /-- `client.Repositories.Get(ctx, owner, repo)`. -/
  get : σ → GoString → GoString → (Option Repository × Option GoError) × σ
  /-- `client.Git.GetRef(ctx, owner, repo, ref)`. -/
  getRef : σ → GoString → GoString → GoString → (Option Reference × Option GoError) × σ
  /-- `client.Git.CreateRef(ctx, owner, repo, &Reference{Ref, Object{SHA}})`: `err`. -/
  createRef : σ → GoString → GoString → GoString → GoString → Option GoError × σ
  /-- `client.Repositories.CreateFile(ctx, owner, repo, path, {Message, Content, Branch})`: `err`. -/
  createFile : σ → GoString → GoString → GoString → GoString → GoString → GoString →
    Option GoError × σ
  /-- `client.PullRequests.Create(ctx, owner, repo, {Title, Head, Base, Body})`. -/
  createPullRequest : σ → GoString → GoString → GoString → GoString → GoString → GoString →
    (Option PullRequest × Option GoError) × σ

/-- The run-time panics the source can raise. -/
inductive Panic where
  | sliceOutOfRange
  | nilDereference
  deriving DecidableEq, Repr

/-- How a call of `processRepository` ends. -/
inductive Outcome where
  /-- `return msg, nil`. -/
  | ok (msg : GoString)
  /-- `return "", err`, with the text of `err`. -/
  | error (err : GoError)
  /-- A run-time panic: the function does not return. -/
  | panic (p : Panic)
  deriving DecidableEq, Repr

/-- A finished call of `processRepository`: its outcome, the API operations
it invoked (oldest first) and the world state it left. -/
structure Run (σ : Type) where
  outcome : Outcome
  trace : List Event
  final : σ
  deriving DecidableEq, Repr

/-- The operations of a run without their failure flags. -/
def Run.calls {σ : Type} (r : Run σ) : List Call := r.trace.map Event.call

/-! ## `processRepository` -/

/-- The local `prBody` of `processRepository`. -/
def prBody : GoString :=
  str "This PR adds a CODEOWNERS file to define the team responsible for this repo."

/-- `processRepository(client, repo)` of `main.go`, run from world state `s0`. -/
def processRepository {σ : Type} (client : Client σ) (s0 : σ) (repo : GoString) : Run σ :=
  let parts := stringsSplit repo slash
  if h : parts.length < 3 then
    ⟨.error (str "invalid repository format"), [], s0⟩
  else
    let owner := parts[1]
    let repoName := parts[2]
    -- Check if CODEOWNERS file exists
    let r1 := client.getContents s0 owner repoName (str ".github/CODEOWNERS")
    let c1 := Call.getContents owner repoName (str ".github/CODEOWNERS")
    match r1.1.2 with
    | none => ⟨.ok (str "CODEOWNERS File Exist"), [⟨c1, false⟩], r1.2⟩
    | some err1 =>
      let t1 : List Event := [⟨c1, true⟩]
      let not404 : Bool :=
        match r1.1.1 with
        | some resp => resp.StatusCode != 404
        | none => false
      if not404 then
        ⟨.error (str "error checking CODEOWNERS file: " ++ err1), t1, r1.2⟩
      else
        let r2 := client.get r1.2 owner repoName
        let c2 := Call.getRepository owner repoName
        match r2.1.2 with
        | some err2 =>
          ⟨.error (str "error getting repository info: " ++ err2), t1 ++ [⟨c2, true⟩], r2.2⟩
        | none =>
          let t2 := t1 ++ [⟨c2, false⟩]
          let baseBranch := GetDefaultBranch r2.1.1
          let r3 := client.getRef r2.2 owner repoName (str "refs/heads/" ++ baseBranch)
          let c3 := Call.getRef owner repoName (str "refs/heads/" ++ baseBranch)
          match r3.1.2 with
          | some err3 =>
            ⟨.error (str "error getting reference for base branch: " ++ err3),
              t2 ++ [⟨c3, true⟩], r3.2⟩
          | none =>
            let t3 := t2 ++ [⟨c3, false⟩]
            let baseSHA := GetSHA (GetObject r3.1.1)
            -- Create a new branch
            match sliceTo baseSHA 7 with
            | none => ⟨.panic .sliceOutOfRange, t3, r3.2⟩
            | some short =>
              let newBranch := str "create-codeowners-" ++ short
              let newBranchRef := str "refs/heads/" ++ newBranch
              let r4 := client.createRef r3.2 owner repoName newBranchRef baseSHA
              let c4 := Call.createRef owner repoName newBranchRef baseSHA
              match r4.1 with
              | some err4 =>
                ⟨.error (str "error creating new branch: " ++ err4), t3 ++ [⟨c4, true⟩], r4.2⟩
              | none =>
                let t4 := t3 ++ [⟨c4, false⟩]
                -- Create a CODEOWNERS file on the new branch
                let r5 := client.createFile r4.2 owner repoName (str ".github/CODEOWNERS")
                  (str "Create CODEOWNERS file") (str "* @org/team") newBranch
                let c5 := Call.createFile owner repoName (str ".github/CODEOWNERS")
                  (str "Create CODEOWNERS file") (str "* @org/team") newBranch
                match r5.1 with
                | some err5 =>
                  ⟨.error (str "error creating CODEOWNERS file: " ++ err5),
                    t4 ++ [⟨c5, true⟩], r5.2⟩
                | none =>
                  let t5 := t4 ++ [⟨c5, false⟩]
                  -- Create a pull request
                  let r6 := client.createPullRequest r5.2 owner repoName
                    (str "Add CODEOWNERS file") newBranch baseBranch prBody
                  let c6 := Call.createPullRequest owner repoName
                    (str "Add CODEOWNERS file") newBranch baseBranch prBody
                  match r6.1.2 with
                  | some err6 =>
                    ⟨.error (str "error creating pull request: " ++ err6),
                      t5 ++ [⟨c6, true⟩], r6.2⟩
                  | none =>
                    let t6 := t5 ++ [⟨c6, false⟩]
                    match r6.1.1 with
                    | none => ⟨.panic .nilDereference, t6, r6.2⟩
                    | some pr =>
                      match pr.HTMLURL with
                      | none => ⟨.panic .nilDereference, t6, r6.2⟩
                      | some url => ⟨.ok url, t6, r6.2⟩

/-! ## The batch loop of `main` -/

/-- What the loop of `main` carries from one reference to the next. Standard
output is kept as the texts of the `fmt.Println` calls made so far, one
entry per call (each call ends its text with a newline). -/
structure LoopState (σ : Type) where
  /-- The slice `messages`. -/
  messages : List GoString
  /-- The texts printed so far. -/
  stdout : List GoString
  /-- The arguments of the `processRepository` calls made so far. -/
  processed : List GoString
  /-- The API operations invoked so far. -/
  trace : List Event
  /-- The world state. -/
  world : σ
  deriving DecidableEq, Repr

/-- How the process ends. -/
inductive Exit where
  | normal
  | panicked
  deriving DecidableEq, Repr

/-- The loop `for _, repo := range repos` of `main`: a panic inside
`processRepository` is not recovered and ends the loop. -/
def mainLoop {σ : Type} (client : Client σ) : List GoString → LoopState σ → Exit × LoopState σ
  | [], st => (.normal, st)
  | repo :: rest, st =>
    let r := processRepository client st.world repo
    let st1 : LoopState σ :=
      { st with processed := st.processed ++ [repo], trace := st.trace ++ r.trace,
                world := r.final }
    match r.outcome with
    | .panic _ => (.panicked, st1)
    | .error err =>
      mainLoop client rest
        { st1 with stdout := st1.stdout ++ [str "Error processing repository: " ++ err] }
    | .ok msg => mainLoop client rest { st1 with messages := st1.messages ++ [msg] }

/-- A finished run of `main`. -/
structure MainRun (σ : Type) where
  exit : Exit
  /-- The texts of the `fmt.Println` calls, oldest first. -/
  stdout : List GoString
  /-- The arguments of the `processRepository` calls, oldest first. -/
  processed : List GoString
  /-- The API operations invoked, oldest first. -/
  trace : List Event
  final : σ
  deriving DecidableEq, Repr

/-- Function `main` of `main.go`, given what `readRepoList("repositories.txt")`
returned and the client `initGitHubClient()` built. -/
def main {σ : Type} (client : Client σ) (s0 : σ) (readRepoList : Except GoError (List GoString)) :
    MainRun σ :=
  match readRepoList with
  | .error _ => ⟨.panicked, [], [], [], s0⟩
  | .ok repos =>
    let loop := mainLoop client repos ⟨[], [], [], [], s0⟩
    match loop.1 with
    | .panicked => ⟨.panicked, loop.2.stdout, loop.2.processed, loop.2.trace, loop.2.world⟩
    | .normal =>
      -- for _, msg := range messages { fmt.Println(msg) }
      ⟨.normal, loop.2.stdout ++ loop.2.messages, loop.2.processed, loop.2.trace, loop.2.world⟩

/-! ## Vocabulary of the statements -/

/-- The runs of `processRepository` over a list of references, in list
order, each one starting in the world state the previous one left. -/
def batchRuns {σ : Type} (client : Client σ) : σ → List GoString → List (Run σ)
  | _, [] => []
  | s, repo :: rest =>
    processRepository client s repo :: batchRuns client (processRepository client s repo).final rest

/-- The line reported for a failed reference. -/
def errorLine : Outcome → Option GoString
  | .error err => some (str "Error processing repository: " ++ err)
  | _ => none

/-- The line reported for a successful reference. -/
def successLine : Outcome → Option GoString
  | .ok msg => some msg
  | _ => none

/-- Whether a run ended by returning (a message or an error). -/
def Outcome.returned : Outcome → Bool
  | .panic _ => false
  | _ => true

/-- The six operations of a full remediation with their arguments, for
owner `o`, repository `n`, default branch `b` and default-branch SHA `sha`. -/
def remediationCalls (o n b sha : GoString) : List Call :=
  [ .getContents o n (str ".github/CODEOWNERS"),
    .getRepository o n,
    .getRef o n (str "refs/heads/" ++ b),
    .createRef o n (str "refs/heads/create-codeowners-" ++ sha.take 7) sha,
    .createFile o n (str ".github/CODEOWNERS") (str "Create CODEOWNERS file") (str "* @org/team")
      (str "create-codeowners-" ++ sha.take 7),
    .createPullRequest o n (str "Add CODEOWNERS file") (str "create-codeowners-" ++ sha.take 7) b
      prBody ]

/-! ## Clients used at concrete inputs -/

/-- A scripted API: CODEOWNERS answers `contents`, the default branch is
`main`, its reference is `ref`, and each later operation answers as scripted. The
world state counts the operations invoked. -/
def scripted (contents : Option Response × Option GoError) (ref : Option Reference)
    (createRef createFile : Option GoError) (pr : Option PullRequest × Option GoError) :
    Client Nat where
  getContents s _ _ _ := (contents, s + 1)
  get s _ _ := ((some ⟨some (str "main")⟩, none), s + 1)
  getRef s _ _ _ := ((ref, none), s + 1)
  createRef s _ _ _ _ := (createRef, s + 1)
  createFile s _ _ _ _ _ _ := (createFile, s + 1)
  createPullRequest s _ _ _ _ _ _ := (pr, s + 1)

/-- A reference whose object carries the SHA `sha`. -/
def refAt (sha : GoString) : Option Reference := some ⟨some ⟨some sha⟩⟩

/-- The answer of an existence check that found no file: HTTP 404. -/
def notFound : Option Response × Option GoError :=
  (some ⟨404⟩, some (str "404 Not Found"))

/-- The pull request the scripted API returns. -/
def samplePR : Option PullRequest × Option GoError :=
  (some ⟨some (str "https://github.com/acme/widgets/pull/1")⟩, none)

/-- A transport failure of the existence check: an error and no HTTP response. -/
def transportFailure : Option Response × Option GoError :=
  (none, some (str "dial tcp: i/o timeout"))

/-- Every operation succeeds and the default branch sits at the 3-byte SHA `abc`. -/
def shortShaApi : Client Nat :=
  scripted notFound (refAt (str "abc")) none none samplePR

/-- Every operation succeeds and the created pull request carries no `html_url`. -/
def noUrlApi : Client Nat :=
  scripted notFound (refAt (str "abcdef1234567890")) none none (some ⟨none⟩, none)

/-- The end-to-end scenario of the specification: file absent, default
branch `main` at `abcdef1234567890`, every operation succeeds. -/
def acme : Client Nat :=
  scripted notFound (refAt (str "abcdef1234567890")) none none samplePR

/-! ## Facts about the library functions -/

theorem splitSegments_length (sep : UInt8) (s : GoString) :
    (splitSegments sep s).2.length = s.count sep := by
  induction s with
  | nil => rfl
  | cons b rest ih =>
    by_cases hb : b = sep
    · subst hb; simp [splitSegments, ih]
    · have : (b == sep) = false := by simpa using hb
      simp [splitSegments, hb, ih, List.count_cons, this]

/-- `strings.Split` yields one segment more than there are separators. -/
theorem stringsSplit_length (s : GoString) (sep : UInt8) :
    (stringsSplit s sep).length = s.count sep + 1 := by
  simp [stringsSplit, splitSegments_length]

/-- Two byte strings with different first bytes are different. -/
theorem ne_of_head_ne {a b : GoString} (h : a.head? ≠ b.head?) : a ≠ b :=
  fun hab => h (congrArg List.head? hab)

/-- Every error text built after the format check differs from the format
error: it starts with `e`, the format error with `i`. -/
theorem later_errors_ne_format (e : GoError) :
    str "error checking CODEOWNERS file: " ++ e ≠ str "invalid repository format" ∧
    str "error getting repository info: " ++ e ≠ str "invalid repository format" ∧
    str "error getting reference for base branch: " ++ e ≠ str "invalid repository format" ∧
    str "error creating new branch: " ++ e ≠ str "invalid repository format" ∧
    str "error creating CODEOWNERS file: " ++ e ≠ str "invalid repository format" ∧
    str "error creating pull request: " ++ e ≠ str "invalid repository format" := by
  have key : (some (101 : UInt8)) ≠ some 105 := by decide
  exact ⟨ne_of_head_ne key, ne_of_head_ne key, ne_of_head_ne key, ne_of_head_ne key,
    ne_of_head_ne key, ne_of_head_ne key⟩

/-! ## Parsing the reference -/

/-- C1: `processRepository` returns the error `invalid repository format`
exactly when `strings.Split(repo, "/")` has fewer than 3 segments, which is
exactly when `repo` holds fewer than two `/` bytes (the empty line included);
such a run invokes no API operation and leaves the world untouched; and every
reference with 3 or more segments, whatever the segments are, invokes the
existence check on segments 1 and 2 as its first operation. -/
theorem C1_invalid_format_iff_fewer_than_three_segments {σ : Type} (client : Client σ) (s0 : σ)
    (repo : GoString) :
    ((processRepository client s0 repo).outcome = .error (str "invalid repository format") ↔
      (stringsSplit repo slash).length < 3) ∧
    ((stringsSplit repo slash).length < 3 ↔ repo.count slash < 2) ∧
    (stringsSplit [] slash).length < 3 ∧
    ((stringsSplit repo slash).length < 3 →
      (processRepository client s0 repo).trace = [] ∧
      (processRepository client s0 repo).final = s0) ∧
    (∀ h : 3 ≤ (stringsSplit repo slash).length,
      ∃ failed rest, (processRepository client s0 repo).trace =
        ⟨.getContents (stringsSplit repo slash)[1] (stringsSplit repo slash)[2]
          (str ".github/CODEOWNERS"), failed⟩ :: rest) := by
  refine ⟨?_, ?_, by decide, ?_, ?_⟩
  · have h1 := fun e : GoError => (later_errors_ne_format e).1
    have h2 := fun e : GoError => (later_errors_ne_format e).2.1
    have h3 := fun e : GoError => (later_errors_ne_format e).2.2.1
    have h4 := fun e : GoError => (later_errors_ne_format e).2.2.2.1
    have h5 := fun e : GoError => (later_errors_ne_format e).2.2.2.2.1
    have h6 := fun e : GoError => (later_errors_ne_format e).2.2.2.2.2
    unfold processRepository
    by_cases h : (stringsSplit repo slash).length < 3
    · simp [h]
    · simp only [dif_neg h]
      refine iff_of_false ?_ h
      repeat' split
      all_goals simp [h1, h2, h3, h4, h5, h6]
  · rw [stringsSplit_length]; omega
  · intro h
    unfold processRepository
    simp [h]
  · intro h
    unfold processRepository
    simp only [dif_neg (not_lt.mpr h)]
    repeat' split
    all_goals simp

/-- The scenario `gh/foo` of the specification: 2 segments, the format
error, and no API operation recorded. -/
theorem C1_witness :
    (processRepository acme 0 (str "gh/foo")).outcome =
      .error (str "invalid repository format") ∧
    (processRepository acme 0 (str "gh/foo")).trace = [] ∧
    (processRepository acme 0 (str "gh/foo")).final = 0 :=
  have h := C1_invalid_format_iff_fewer_than_three_segments acme 0 (str "gh/foo")
  ⟨h.1.mpr (by decide), h.2.2.2.1 (by decide)⟩

/-- Every operation of a run on a reference with at least 3 segments is
addressed to segment 1 (owner) and segment 2 (repository name). -/
theorem trace_owner_repo {σ : Type} (client : Client σ) (s0 : σ) (repo : GoString)
    (h3 : 3 ≤ (stringsSplit repo slash).length) :
    ∀ ev ∈ (processRepository client s0 repo).trace,
      ev.call.owner = (stringsSplit repo slash)[1] ∧
      ev.call.repo = (stringsSplit repo slash)[2] := by
  unfold processRepository
  simp only [dif_neg (not_lt.mpr h3)]
  repeat' split
  all_goals simp [Call.owner, Call.repo]

/-- A run on a reference with at least 3 segments invokes some operation. -/
theorem trace_ne_nil {σ : Type} (client : Client σ) (s0 : σ) (repo : GoString)
    (h3 : 3 ≤ (stringsSplit repo slash).length) :
    (processRepository client s0 repo).trace ≠ [] := by
  unfold processRepository
  simp only [dif_neg (not_lt.mpr h3)]
  repeat' split
  all_goals simp

/-- C2: for a reference with at least 3 segments, every API operation of the
run is passed segment 1 as owner and segment 2 as repository name, and the
whole run (outcome, operations, final world) is the same for any other
reference that has the same segments 1 and 2: segment 0 and the segments
past index 2 have no influence. -/
theorem C2_owner_and_name_are_segments_one_and_two {σ : Type} (client : Client σ) (s0 : σ)
    (repo : GoString) (h3 : 3 ≤ (stringsSplit repo slash).length) :
    (∀ ev ∈ (processRepository client s0 repo).trace,
      ev.call.owner = (stringsSplit repo slash)[1] ∧
      ev.call.repo = (stringsSplit repo slash)[2]) ∧
    (∀ other : GoString, ∀ h3' : 3 ≤ (stringsSplit other slash).length,
      (stringsSplit other slash)[1] = (stringsSplit repo slash)[1] →
      (stringsSplit other slash)[2] = (stringsSplit repo slash)[2] →
      processRepository client s0 other = processRepository client s0 repo) := by
  refine ⟨trace_owner_repo client s0 repo h3, ?_⟩
  intro other h3' e1 e2
  unfold processRepository
  simp only [dif_neg (not_lt.mpr h3), dif_neg (not_lt.mpr h3'), e1, e2]

/-- The reference `evil.example/acme/widgets/tree/main` is processed exactly
like `github.com/acme/widgets`, and every operation goes to `acme`/`widgets`. -/
theorem C2_witness :
    3 ≤ (stringsSplit (str "github.com/acme/widgets") slash).length ∧
    (∀ ev ∈ (processRepository acme 0 (str "github.com/acme/widgets")).trace,
      ev.call.owner = str "acme" ∧ ev.call.repo = str "widgets") ∧
    processRepository acme 0 (str "evil.example/acme/widgets/tree/main") =
      processRepository acme 0 (str "github.com/acme/widgets") :=
  have h := C2_owner_and_name_are_segments_one_and_two acme 0 (str "github.com/acme/widgets")
    (by decide)
  ⟨by decide, h.1, h.2 (str "evil.example/acme/widgets/tree/main") (by decide) (by decide)
    (by decide)⟩

/-- C3 as stated fails: `github.com/acme/widgets/extra` has 4 segments, its
last two are `widgets` and `extra`, and the run addresses `acme`/`widgets`. -/
theorem C3_counterexample :
    stringsSplit (str "github.com/acme/widgets/extra") slash =
      [str "github.com", str "acme", str "widgets", str "extra"] ∧
    (processRepository acme 0 (str "github.com/acme/widgets/extra")).calls.head? =
      some (.getContents (str "acme") (str "widgets") (str ".github/CODEOWNERS")) ∧
    ¬ ∀ ev ∈ (processRepository acme 0 (str "github.com/acme/widgets/extra")).trace,
      (stringsSplit (str "github.com/acme/widgets/extra") slash)[
        (stringsSplit (str "github.com/acme/widgets/extra") slash).length - 2]? =
          some ev.call.owner ∧
      (stringsSplit (str "github.com/acme/widgets/extra") slash)[
        (stringsSplit (str "github.com/acme/widgets/extra") slash).length - 1]? =
          some ev.call.repo := by
  decide

/-- C3, amended: for a reference with exactly 3 segments the run invokes at
least one operation, and every operation is addressed to the last two
segments of the split (index `n-2` as owner, index `n-1` as name). -/
theorem C3_last_two_segments_when_exactly_three {σ : Type} (client : Client σ) (s0 : σ)
    (repo : GoString) (h : (stringsSplit repo slash).length = 3) :
    (processRepository client s0 repo).trace ≠ [] ∧
    ∀ ev ∈ (processRepository client s0 repo).trace,
      (stringsSplit repo slash)[(stringsSplit repo slash).length - 2]? = some ev.call.owner ∧
      (stringsSplit repo slash)[(stringsSplit repo slash).length - 1]? = some ev.call.repo := by
  have h3 : 3 ≤ (stringsSplit repo slash).length := by omega
  refine ⟨trace_ne_nil client s0 repo h3, fun ev hev => ?_⟩
  obtain ⟨ho, hn⟩ := trace_owner_repo client s0 repo h3 ev hev
  rw [ho, hn]
  have e2 : (stringsSplit repo slash).length - 2 = 1 := by omega
  have e1 : (stringsSplit repo slash).length - 1 = 2 := by omega
  rw [e2, e1]
  exact ⟨List.getElem?_eq_getElem _, List.getElem?_eq_getElem _⟩

/-- On `github.com/acme/widgets` the operations go to `acme`/`widgets`, the last two segments. -/
theorem C3_witness :
    (stringsSplit (str "github.com/acme/widgets") slash).length = 3 ∧
    (processRepository acme 0 (str "github.com/acme/widgets")).trace ≠ [] ∧
    ∀ ev ∈ (processRepository acme 0 (str "github.com/acme/widgets")).trace,
      some (str "acme") = some ev.call.owner ∧ some (str "widgets") = some ev.call.repo :=
  ⟨by decide,
    C3_last_two_segments_when_exactly_three acme 0 (str "github.com/acme/widgets") (by decide)⟩

/-! ## The existence check -/

/-- C4: for a reference with at least 3 segments, when the request for
`.github/CODEOWNERS` returns no error, `processRepository` returns the
message `CODEOWNERS File Exist` with no error, and that request is the only
API operation of the run. -/
theorem C4_existing_file_is_left_alone {σ : Type} (client : Client σ) (s0 : σ) (repo : GoString)
    (h3 : 3 ≤ (stringsSplit repo slash).length)
    (hok : (client.getContents s0 (stringsSplit repo slash)[1] (stringsSplit repo slash)[2]
      (str ".github/CODEOWNERS")).1.2 = none) :
    processRepository client s0 repo =
      ⟨.ok (str "CODEOWNERS File Exist"),
        [⟨.getContents (stringsSplit repo slash)[1] (stringsSplit repo slash)[2]
          (str ".github/CODEOWNERS"), false⟩],
        (client.getContents s0 (stringsSplit repo slash)[1] (stringsSplit repo slash)[2]
          (str ".github/CODEOWNERS")).2⟩ := by
  unfold processRepository
  simp only [dif_neg (not_lt.mpr h3)]
  split
  · rfl
  · rename_i e he
    rw [hok] at he
    cases he

/-- With the file present (HTTP 200, no error) the run on
`github.com/acme/widgets` is the single existence check. -/
theorem C4_witness :
    processRepository (scripted (some ⟨200⟩, none) (refAt (str "abcdef1234567890")) none none
        samplePR) 0 (str "github.com/acme/widgets") =
      ⟨.ok (str "CODEOWNERS File Exist"),
        [⟨.getContents (str "acme") (str "widgets") (str ".github/CODEOWNERS"), false⟩], 1⟩ :=
  C4_existing_file_is_left_alone
    (scripted (some ⟨200⟩, none) (refAt (str "abcdef1234567890")) none none samplePR) 0
    (str "github.com/acme/widgets") (by decide) (by decide)

/-- An existence check that fails with an HTTP response other than 404
ends the run at once with an error. -/
theorem other_status_returns_error {σ : Type} (client : Client σ) (s0 s1 : σ)
    (repo host o n : GoString) (more : List GoString) (resp : Response) (e : GoError)
    (hparts : stringsSplit repo slash = host :: o :: n :: more)
    (h1 : client.getContents s0 o n (str ".github/CODEOWNERS") = ((some resp, some e), s1))
    (hstatus : resp.StatusCode ≠ 404) :
    processRepository client s0 repo =
      ⟨.error (str "error checking CODEOWNERS file: " ++ e),
        [⟨.getContents o n (str ".github/CODEOWNERS"), true⟩], s1⟩ := by
  unfold processRepository
  simp [hparts, h1, hstatus]

/-- An existence check that fails without any HTTP response does not end
the run: the repository lookup is invoked next. -/
theorem nil_response_falls_through {σ : Type} (client : Client σ) (s0 s1 : σ)
    (repo host o n : GoString) (more : List GoString) (e : GoError)
    (hparts : stringsSplit repo slash = host :: o :: n :: more)
    (h1 : client.getContents s0 o n (str ".github/CODEOWNERS") = ((none, some e), s1)) :
    ∃ failed rest, (processRepository client s0 repo).trace =
      ⟨.getContents o n (str ".github/CODEOWNERS"), true⟩ ::
        ⟨.getRepository o n, failed⟩ :: rest := by
  unfold processRepository
  simp only [hparts]
  simp only [List.length_cons, show ¬ (more.length + 1 + 1 + 1 < 3) by omega, dite_false,
    List.getElem_cons_succ, List.getElem_cons_zero, h1]
  repeat' split
  all_goals simp_all

/-- C5 fails on the code: the existence check for `github.com/acme/widgets`
fails with a transport error that carries no HTTP response (so it did not
answer 404), and the run goes on to create the branch, the file and the pull
request and returns the pull request URL instead of an error. -/
theorem C5_transport_failure_is_remediated :
    (scripted transportFailure (refAt (str "abcdef1234567890")) none none samplePR).getContents 0
        (str "acme") (str "widgets") (str ".github/CODEOWNERS") = (transportFailure, 1) ∧
    transportFailure = (none, some (str "dial tcp: i/o timeout")) ∧
    (processRepository
        (scripted transportFailure (refAt (str "abcdef1234567890")) none none samplePR) 0
        (str "github.com/acme/widgets")).outcome =
      .ok (str "https://github.com/acme/widgets/pull/1") ∧
    (processRepository
        (scripted transportFailure (refAt (str "abcdef1234567890")) none none samplePR) 0
        (str "github.com/acme/widgets")).calls =
      remediationCalls (str "acme") (str "widgets") (str "main") (str "abcdef1234567890") := by
  decide

/-! ## Remediation -/

/-- The branch reference is the literal prefix followed by the short SHA. -/
theorem newBranchRef_eq (short : GoString) :
    str "refs/heads/" ++ (str "create-codeowners-" ++ short) =
      str "refs/heads/create-codeowners-" ++ short := rfl

/-- C6 as stated fails. On `shortShaApi` the existence check answers 404 and
every operation returns no error in every state, but the default-branch SHA
is `abc`: the run invokes three operations and panics at `baseSHA[:7]`. On
`noUrlApi` likewise, with a 16-byte SHA and a pull request that carries no
`html_url`: the six operations are invoked and the run panics at
`*pr.HTMLURL` instead of returning a message. -/
theorem C6_counterexample :
    (∀ s o n p, (shortShaApi.getContents s o n p).1 = (some ⟨404⟩, some (str "404 Not Found"))) ∧
    (∀ s o n, (shortShaApi.get s o n).1.2 = none) ∧
    (∀ s o n r, (shortShaApi.getRef s o n r).1.2 = none) ∧
    (∀ s o n r sha, (shortShaApi.createRef s o n r sha).1 = none) ∧
    (∀ s o n p m c b, (shortShaApi.createFile s o n p m c b).1 = none) ∧
    (∀ s o n t h b body, (shortShaApi.createPullRequest s o n t h b body).1.2 = none) ∧
    processRepository shortShaApi 0 (str "github.com/acme/widgets") =
      ⟨.panic .sliceOutOfRange,
        [⟨.getContents (str "acme") (str "widgets") (str ".github/CODEOWNERS"), true⟩,
         ⟨.getRepository (str "acme") (str "widgets"), false⟩,
         ⟨.getRef (str "acme") (str "widgets") (str "refs/heads/main"), false⟩], 3⟩ ∧
    (∀ s o n p, (noUrlApi.getContents s o n p).1 = (some ⟨404⟩, some (str "404 Not Found"))) ∧
    (∀ s o n t h b body, (noUrlApi.createPullRequest s o n t h b body).1 = (some ⟨none⟩, none)) ∧
    (processRepository noUrlApi 0 (str "github.com/acme/widgets")).outcome =
      .panic .nilDereference ∧
    (processRepository noUrlApi 0 (str "github.com/acme/widgets")).calls.map Call.op =
      [.getContents, .getRepository, .getRef, .createRef, .createFile, .createPullRequest] ∧
    (processRepository noUrlApi 0 (str "github.com/acme/widgets")).trace.map Event.failed =
      [true, false, false, false, false, false] :=
  ⟨fun _ _ _ _ => rfl, fun _ _ _ => rfl, fun _ _ _ _ => rfl, fun _ _ _ _ _ => rfl,
    fun _ _ _ _ _ _ _ => rfl, fun _ _ _ _ _ _ _ => rfl, by decide,
    fun _ _ _ _ => rfl, fun _ _ _ _ _ _ _ => rfl, by decide, by decide, by decide⟩

/-- C6, amended: for a reference with at least 3 segments (owner `o`, name
`n`), when the existence check answers 404, every later operation returns
no error, the default-branch SHA has at least 7 bytes and the returned pull
request carries an `html_url`, the run invokes exactly get_contents,
get_repository, get_ref, create_ref, create_file, create_pull_request, in
that order and once each, and returns that `html_url` with no error. -/
theorem C6_full_remediation_sequence {σ : Type} (client : Client σ) (s0 s1 s2 s3 s4 s5 s6 : σ)
    (repo host o n : GoString) (more : List GoString) (e : GoError)
    (info : Option Repository) (ref : Option Reference) (pr : PullRequest) (url : GoString)
    (hparts : stringsSplit repo slash = host :: o :: n :: more)
    (h1 : client.getContents s0 o n (str ".github/CODEOWNERS") = ((some ⟨404⟩, some e), s1))
    (h2 : client.get s1 o n = ((info, none), s2))
    (h3 : client.getRef s2 o n (str "refs/heads/" ++ GetDefaultBranch info) = ((ref, none), s3))
    (hsha : 7 ≤ (GetSHA (GetObject ref)).length)
    (h4 : client.createRef s3 o n
      (str "refs/heads/create-codeowners-" ++ (GetSHA (GetObject ref)).take 7)
      (GetSHA (GetObject ref)) = (none, s4))
    (h5 : client.createFile s4 o n (str ".github/CODEOWNERS") (str "Create CODEOWNERS file")
      (str "* @org/team") (str "create-codeowners-" ++ (GetSHA (GetObject ref)).take 7) =
        (none, s5))
    (h6 : client.createPullRequest s5 o n (str "Add CODEOWNERS file")
      (str "create-codeowners-" ++ (GetSHA (GetObject ref)).take 7) (GetDefaultBranch info)
      prBody = ((some pr, none), s6))
    (hurl : pr.HTMLURL = some url) :
    (processRepository client s0 repo).outcome = .ok url ∧
    (processRepository client s0 repo).calls =
      [ .getContents o n (str ".github/CODEOWNERS"),
        .getRepository o n,
        .getRef o n (str "refs/heads/" ++ GetDefaultBranch info),
        .createRef o n (str "refs/heads/create-codeowners-" ++ (GetSHA (GetObject ref)).take 7)
          (GetSHA (GetObject ref)),
        .createFile o n (str ".github/CODEOWNERS") (str "Create CODEOWNERS file")
          (str "* @org/team") (str "create-codeowners-" ++ (GetSHA (GetObject ref)).take 7),
        .createPullRequest o n (str "Add CODEOWNERS file")
          (str "create-codeowners-" ++ (GetSHA (GetObject ref)).take 7) (GetDefaultBranch info)
          prBody ] ∧
    (processRepository client s0 repo).trace.map Event.failed =
      [true, false, false, false, false, false] ∧
    (processRepository client s0 repo).final = s6 := by
  have hlen : ¬ (more.length + 1 + 1 + 1 < 3) := by omega
  unfold processRepository Run.calls
  simp [hparts, hlen, h1, h2, h3, sliceTo, hsha, newBranchRef_eq, h4, h5, h6, hurl]

/-- The end-to-end scenario: `github.com/acme/widgets`, file absent, default
branch `main` at `abcdef1234567890`; the run returns the pull request URL. -/
theorem C6_witness :
    (processRepository acme 0 (str "github.com/acme/widgets")).outcome =
      .ok (str "https://github.com/acme/widgets/pull/1") ∧
    (processRepository acme 0 (str "github.com/acme/widgets")).calls =
      [ .getContents (str "acme") (str "widgets") (str ".github/CODEOWNERS"),
        .getRepository (str "acme") (str "widgets"),
        .getRef (str "acme") (str "widgets") (str "refs/heads/main"),
        .createRef (str "acme") (str "widgets") (str "refs/heads/create-codeowners-abcdef1")
          (str "abcdef1234567890"),
        .createFile (str "acme") (str "widgets") (str ".github/CODEOWNERS")
          (str "Create CODEOWNERS file") (str "* @org/team") (str "create-codeowners-abcdef1"),
        .createPullRequest (str "acme") (str "widgets") (str "Add CODEOWNERS file")
          (str "create-codeowners-abcdef1") (str "main") prBody ] ∧
    (processRepository acme 0 (str "github.com/acme/widgets")).trace.map Event.failed =
      [true, false, false, false, false, false] ∧
    (processRepository acme 0 (str "github.com/acme/widgets")).final = 6 :=
  C6_full_remediation_sequence acme 0 1 2 3 4 5 6 (str "github.com/acme/widgets")
    (str "github.com") (str "acme") (str "widgets") [] (str "404 Not Found")
    (some ⟨some (str "main")⟩) (refAt (str "abcdef1234567890"))
    ⟨some (str "https://github.com/acme/widgets/pull/1")⟩
    (str "https://github.com/acme/widgets/pull/1")
    (by decide) (by decide) (by decide) (by decide) (by decide) (by decide) (by decide)
    (by decide) (by decide)

/-- C7: in every run that reaches remediation (the existence check failed
without a non-404 response, the repository lookup gave default branch `B`,
the lookup of `refs/heads/B` gave SHA `S`), the operations invoked are an
initial part of the six remediation operations with these arguments: ref
`refs/heads/create-codeowners-<S[:7]>` pointing at `S`; file
`.github/CODEOWNERS` with content `* @org/team` and message
`Create CODEOWNERS file` on branch `create-codeowners-<S[:7]>`; pull request
titled `Add CODEOWNERS file` from that branch into `B`. When `S` has at least
7 bytes the ref creation is invoked. -/
theorem C7_remediation_arguments {σ : Type} (client : Client σ) (s0 s1 s2 s3 : σ)
    (repo host o n : GoString) (more : List GoString) (resp : Option Response) (e : GoError)
    (info : Option Repository) (ref : Option Reference)
    (hparts : stringsSplit repo slash = host :: o :: n :: more)
    (h1 : client.getContents s0 o n (str ".github/CODEOWNERS") = ((resp, some e), s1))
    (hrem : ∀ r, resp = some r → r.StatusCode = 404)
    (h2 : client.get s1 o n = ((info, none), s2))
    (h3 : client.getRef s2 o n (str "refs/heads/" ++ GetDefaultBranch info) = ((ref, none), s3)) :
    (processRepository client s0 repo).calls <+:
      [ .getContents o n (str ".github/CODEOWNERS"),
        .getRepository o n,
        .getRef o n (str "refs/heads/" ++ GetDefaultBranch info),
        .createRef o n (str "refs/heads/create-codeowners-" ++ (GetSHA (GetObject ref)).take 7)
          (GetSHA (GetObject ref)),
        .createFile o n (str ".github/CODEOWNERS") (str "Create CODEOWNERS file")
          (str "* @org/team") (str "create-codeowners-" ++ (GetSHA (GetObject ref)).take 7),
        .createPullRequest o n (str "Add CODEOWNERS file")
          (str "create-codeowners-" ++ (GetSHA (GetObject ref)).take 7) (GetDefaultBranch info)
          (str "This PR adds a CODEOWNERS file to define the team responsible for this repo.") ] ∧
    (7 ≤ (GetSHA (GetObject ref)).length →
      (processRepository client s0 repo).calls[3]? =
        some (.createRef o n
          (str "refs/heads/create-codeowners-" ++ (GetSHA (GetObject ref)).take 7)
          (GetSHA (GetObject ref)))) := by
  have hlen : ¬ (more.length + 1 + 1 + 1 < 3) := by omega
  have hnot : ∀ r, resp = some r → (r.StatusCode != 404) = false := by
    intro r hr; simp [hrem r hr]
  unfold processRepository Run.calls
  rcases resp with _ | r
  · simp only [hparts, List.length_cons, hlen, dite_false, List.getElem_cons_succ,
      List.getElem_cons_zero, h1, h2, h3, sliceTo, newBranchRef_eq, prBody]
    repeat' split
    all_goals simp_all
  · have hr := hnot r rfl
    simp only [hparts, List.length_cons, hlen, dite_false, List.getElem_cons_succ,
      List.getElem_cons_zero, h1, h2, h3, sliceTo, newBranchRef_eq, prBody, hr]
    repeat' split
    all_goals simp_all

/-- The scenario of the specification: `github.com/acme/widgets`, default
branch `main` at `abcdef1234567890`: branch `create-codeowners-abcdef1` is
created from that SHA and the pull request goes from it into `main`. -/
theorem C7_witness :
    (processRepository acme 0 (str "github.com/acme/widgets")).calls <+:
      [ .getContents (str "acme") (str "widgets") (str ".github/CODEOWNERS"),
        .getRepository (str "acme") (str "widgets"),
        .getRef (str "acme") (str "widgets") (str "refs/heads/main"),
        .createRef (str "acme") (str "widgets") (str "refs/heads/create-codeowners-abcdef1")
          (str "abcdef1234567890"),
        .createFile (str "acme") (str "widgets") (str ".github/CODEOWNERS")
          (str "Create CODEOWNERS file") (str "* @org/team") (str "create-codeowners-abcdef1"),
        .createPullRequest (str "acme") (str "widgets") (str "Add CODEOWNERS file")
          (str "create-codeowners-abcdef1") (str "main")
          (str "This PR adds a CODEOWNERS file to define the team responsible for this repo.") ] ∧
    (7 ≤ (str "abcdef1234567890").length →
      (processRepository acme 0 (str "github.com/acme/widgets")).calls[3]? =
        some (.createRef (str "acme") (str "widgets")
          (str "refs/heads/create-codeowners-abcdef1") (str "abcdef1234567890"))) :=
  C7_remediation_arguments acme 0 1 2 3 (str "github.com/acme/widgets")
    (str "github.com") (str "acme") (str "widgets") [] (some ⟨404⟩) (str "404 Not Found")
    (some ⟨some (str "main")⟩) (refAt (str "abcdef1234567890"))
    (by decide) (by decide) (by intro r hr; cases hr; rfl) (by decide) (by decide)

/-- C10: `baseSHA[:7]` is defined exactly when the SHA has at least 7
bytes. In a run that reaches that step with SHA `S`: if `S` has at least 7
bytes the slice is its first 7 bytes, the branch name has 18 + 7 = 25 bytes
and the run does not panic there (ref creation is invoked); if `S` is
shorter the run panics after the three lookups, returns neither message nor
error, invokes no create operation, and a batch starting with that
reference aborts there with nothing printed. A reference that carries no
object or no SHA gives the empty SHA. -/
theorem C10_short_sha_slice {σ : Type} (client : Client σ) (s0 s1 s2 s3 : σ)
    (repo host o n : GoString) (more : List GoString) (resp : Option Response) (e : GoError)
    (info : Option Repository) (ref : Option Reference)
    (hparts : stringsSplit repo slash = host :: o :: n :: more)
    (h1 : client.getContents s0 o n (str ".github/CODEOWNERS") = ((resp, some e), s1))
    (hrem : ∀ r, resp = some r → r.StatusCode = 404)
    (h2 : client.get s1 o n = ((info, none), s2))
    (h3 : client.getRef s2 o n (str "refs/heads/" ++ GetDefaultBranch info) = ((ref, none), s3)) :
    ((sliceTo (GetSHA (GetObject ref)) 7).isSome ↔ 7 ≤ (GetSHA (GetObject ref)).length) ∧
    (7 ≤ (GetSHA (GetObject ref)).length →
      sliceTo (GetSHA (GetObject ref)) 7 = some ((GetSHA (GetObject ref)).take 7) ∧
      (str "create-codeowners-").length = 18 ∧
      (str "create-codeowners-" ++ (GetSHA (GetObject ref)).take 7).length = 25 ∧
      (processRepository client s0 repo).outcome ≠ .panic .sliceOutOfRange ∧
      4 ≤ (processRepository client s0 repo).trace.length) ∧
    ((GetSHA (GetObject ref)).length < 7 →
      sliceTo (GetSHA (GetObject ref)) 7 = none ∧
      processRepository client s0 repo =
        ⟨.panic .sliceOutOfRange,
          [⟨.getContents o n (str ".github/CODEOWNERS"), true⟩,
           ⟨.getRepository o n, false⟩,
           ⟨.getRef o n (str "refs/heads/" ++ GetDefaultBranch info), false⟩], s3⟩ ∧
      (∀ ev ∈ (processRepository client s0 repo).trace, ev.call.isCreate = false) ∧
      ∀ rest : List GoString,
        (main client s0 (.ok (repo :: rest))).exit = .panicked ∧
        (main client s0 (.ok (repo :: rest))).stdout = [] ∧
        (main client s0 (.ok (repo :: rest))).processed = [repo]) ∧
    GetSHA (GetObject none) = [] ∧ GetSHA (GetObject (some ⟨none⟩)) = [] ∧
    GetSHA (GetObject (some ⟨some ⟨none⟩⟩)) = [] := by
  have hlen : ¬ (more.length + 1 + 1 + 1 < 3) := by omega
  have hnot : ∀ r, resp = some r → (r.StatusCode != 404) = false := by
    intro r hr; simp [hrem r hr]
  have hpre : (str "create-codeowners-").length = 18 := by decide
  refine ⟨?_, ?_, ?_, rfl, rfl, rfl⟩
  · unfold sliceTo; split <;> simp_all
  · intro hsha
    refine ⟨by simp [sliceTo, hsha], hpre, ?_, ?_, ?_⟩
    · rw [List.length_append, hpre, List.length_take]; omega
    · unfold processRepository
      rcases resp with _ | r
      · simp only [hparts, List.length_cons, hlen, dite_false, List.getElem_cons_succ,
          List.getElem_cons_zero, h1, h2, h3, sliceTo, hsha, if_true]
        repeat' split
        all_goals simp_all
      · have hr := hnot r rfl
        simp only [hparts, List.length_cons, hlen, dite_false, List.getElem_cons_succ,
          List.getElem_cons_zero, h1, h2, h3, sliceTo, hsha, if_true, hr]
        repeat' split
        all_goals simp_all
    · unfold processRepository
      rcases resp with _ | r
      · simp only [hparts, List.length_cons, hlen, dite_false, List.getElem_cons_succ,
          List.getElem_cons_zero, h1, h2, h3, sliceTo, hsha, if_true]
        repeat' split
        all_goals simp_all
      · have hr := hnot r rfl
        simp only [hparts, List.length_cons, hlen, dite_false, List.getElem_cons_succ,
          List.getElem_cons_zero, h1, h2, h3, sliceTo, hsha, if_true, hr]
        repeat' split
        all_goals simp_all
  · intro hsha
    have hs : ¬ 7 ≤ (GetSHA (GetObject ref)).length := by omega
    have hrun : processRepository client s0 repo =
        ⟨.panic .sliceOutOfRange,
          [⟨.getContents o n (str ".github/CODEOWNERS"), true⟩,
           ⟨.getRepository o n, false⟩,
           ⟨.getRef o n (str "refs/heads/" ++ GetDefaultBranch info), false⟩], s3⟩ := by
      unfold processRepository
      rcases resp with _ | r
      · simp [hparts, hlen, h1, h2, h3, sliceTo, hs]
      · have hr := hnot r rfl
        simp only [bne_eq_false_iff_eq] at hr
        simp [hparts, hlen, h1, h2, h3, sliceTo, hs, hr]
    refine ⟨by simp [sliceTo, hs], hrun, ?_, ?_⟩
    · rw [hrun]
      simp [Call.isCreate]
    · intro rest
      simp [main, mainLoop, hrun]

/-- A reference without object: the SHA is empty, and the run on
`github.com/acme/widgets` panics after the three lookups. -/
theorem C10_witness :
    processRepository (scripted notFound (some ⟨none⟩) none none samplePR) 0
        (str "github.com/acme/widgets") =
      ⟨.panic .sliceOutOfRange,
        [⟨.getContents (str "acme") (str "widgets") (str ".github/CODEOWNERS"), true⟩,
         ⟨.getRepository (str "acme") (str "widgets"), false⟩,
         ⟨.getRef (str "acme") (str "widgets") (str "refs/heads/main"), false⟩], 3⟩ :=
  ((C10_short_sha_slice (scripted notFound (some ⟨none⟩) none none samplePR) 0 1 2 3
    (str "github.com/acme/widgets") (str "github.com") (str "acme") (str "widgets") []
    (some ⟨404⟩) (str "404 Not Found") (some ⟨some (str "main")⟩) (some ⟨none⟩)
    (by decide) (by decide) (by intro r hr; cases hr; rfl) (by decide) (by decide)).2.2.1
    (by decide)).2.1

/-! ## Failures during remediation -/

/-- The operations of any run, in order, are an initial part of the fixed
sequence of six: nothing else is ever invoked and nothing is invoked twice. -/
theorem ops_initial_part {σ : Type} (client : Client σ) (s0 : σ) (repo : GoString) :
    (processRepository client s0 repo).calls.map Call.op <+:
      [.getContents, .getRepository, .getRef, .createRef, .createFile, .createPullRequest] := by
  unfold processRepository Run.calls
  by_cases h : (stringsSplit repo slash).length < 3
  · simp [h]
  · simp only [dif_neg h]
    repeat' split
    all_goals simp [Call.op]

/-- A failed operation other than the existence check is the last event of
its run, the run returns an error, and the operations before it did not fail
(the existence check apart). -/
theorem failed_event_is_last {σ : Type} (client : Client σ) (s0 : σ) (repo : GoString) :
    ∀ (i : Nat) (ev : Event), (processRepository client s0 repo).trace[i]? = some ev →
      ev.failed = true → ev.call.op ≠ .getContents →
      (∃ err, (processRepository client s0 repo).outcome = .error err) ∧
      (processRepository client s0 repo).trace.length = i + 1 ∧
      ∀ (j : Nat) (ev' : Event), j < i → (processRepository client s0 repo).trace[j]? = some ev' →
        ev'.call.op ≠ .getContents → ev'.failed = false := by
  unfold processRepository
  by_cases h : (stringsSplit repo slash).length < 3
  · simp [h]
  · simp only [dif_neg h]
    repeat' split
    all_goals simp only [List.cons_append, List.nil_append]
    all_goals
      intro i ev hev hfail hop
      rcases i with _ | _ | _ | _ | _ | _ | i
      all_goals simp only [List.getElem?_cons_zero, List.getElem?_cons_succ, List.getElem?_nil,
        Option.some.injEq, reduceCtorEq] at hev
      all_goals subst hev
      all_goals simp only [Call.op, ne_eq, not_true_eq_false, reduceCtorEq,
        Bool.false_eq_true] at hfail hop
    all_goals
      refine ⟨⟨_, rfl⟩, rfl, ?_⟩
      intro j ev' hj hev' hop'
      rcases j with _ | _ | _ | _ | _ | j
      all_goals first
        | (exfalso; omega)
        | (simp only [List.getElem?_cons_zero, List.getElem?_cons_succ, Option.some.injEq] at hev'
           subst hev'
           first | rfl | exact absurd rfl hop')

/-- C8: for a reference with at least 3 segments (owner `o`, name `n`)
whose existence check answered 404, whichever remediation operation the
client answers with an error -- get_repository, get_ref, create_ref,
create_file or create_pull_request, the ones before it having succeeded --
`processRepository` returns the error of that step and no message, the
failed operation is the last one invoked, and the operations invoked are
exactly the steps up to it, once each: nothing is invoked after the failure,
and when create_file or create_pull_request fails the successful create_ref
stays in the trace with no operation undoing it. (create_ref is invoked
only when the default-branch SHA has at least 7 bytes.) In every run the
operations are an initial part of the fixed six. -/
theorem C8_failed_step_ends_the_run {σ : Type} (client : Client σ) (s0 s1 : σ)
    (repo host o n : GoString) (more : List GoString) (e : GoError)
    (hparts : stringsSplit repo slash = host :: o :: n :: more)
    (h1 : client.getContents s0 o n (str ".github/CODEOWNERS") = ((some ⟨404⟩, some e), s1)) :
    -- get_repository fails
    (∀ (info : Option Repository) (e2 : GoError) (s2 : σ),
      client.get s1 o n = ((info, some e2), s2) →
      processRepository client s0 repo =
        ⟨.error (str "error getting repository info: " ++ e2),
          [⟨.getContents o n (str ".github/CODEOWNERS"), true⟩,
           ⟨.getRepository o n, true⟩], s2⟩) ∧
    -- get_ref fails
    (∀ (info : Option Repository) (s2 : σ) (ref : Option Reference) (e3 : GoError) (s3 : σ),
      client.get s1 o n = ((info, none), s2) →
      client.getRef s2 o n (str "refs/heads/" ++ GetDefaultBranch info) = ((ref, some e3), s3) →
      processRepository client s0 repo =
        ⟨.error (str "error getting reference for base branch: " ++ e3),
          [⟨.getContents o n (str ".github/CODEOWNERS"), true⟩,
           ⟨.getRepository o n, false⟩,
           ⟨.getRef o n (str "refs/heads/" ++ GetDefaultBranch info), true⟩], s3⟩) ∧
    -- create_ref fails
    (∀ (info : Option Repository) (s2 : σ) (ref : Option Reference) (s3 : σ) (e4 : GoError)
        (s4 : σ),
      client.get s1 o n = ((info, none), s2) →
      client.getRef s2 o n (str "refs/heads/" ++ GetDefaultBranch info) = ((ref, none), s3) →
      7 ≤ (GetSHA (GetObject ref)).length →
      client.createRef s3 o n
        (str "refs/heads/create-codeowners-" ++ (GetSHA (GetObject ref)).take 7)
        (GetSHA (GetObject ref)) = (some e4, s4) →
      processRepository client s0 repo =
        ⟨.error (str "error creating new branch: " ++ e4),
          [⟨.getContents o n (str ".github/CODEOWNERS"), true⟩,
           ⟨.getRepository o n, false⟩,
           ⟨.getRef o n (str "refs/heads/" ++ GetDefaultBranch info), false⟩,
           ⟨.createRef o n
              (str "refs/heads/create-codeowners-" ++ (GetSHA (GetObject ref)).take 7)
              (GetSHA (GetObject ref)), true⟩], s4⟩) ∧
    -- create_file fails
    (∀ (info : Option Repository) (s2 : σ) (ref : Option Reference) (s3 s4 : σ) (e5 : GoError)
        (s5 : σ),
      client.get s1 o n = ((info, none), s2) →
      client.getRef s2 o n (str "refs/heads/" ++ GetDefaultBranch info) = ((ref, none), s3) →
      7 ≤ (GetSHA (GetObject ref)).length →
      client.createRef s3 o n
        (str "refs/heads/create-codeowners-" ++ (GetSHA (GetObject ref)).take 7)
        (GetSHA (GetObject ref)) = (none, s4) →
      client.createFile s4 o n (str ".github/CODEOWNERS") (str "Create CODEOWNERS file")
        (str "* @org/team") (str "create-codeowners-" ++ (GetSHA (GetObject ref)).take 7) =
          (some e5, s5) →
      processRepository client s0 repo =
        ⟨.error (str "error creating CODEOWNERS file: " ++ e5),
          [⟨.getContents o n (str ".github/CODEOWNERS"), true⟩,
           ⟨.getRepository o n, false⟩,
           ⟨.getRef o n (str "refs/heads/" ++ GetDefaultBranch info), false⟩,
           ⟨.createRef o n
              (str "refs/heads/create-codeowners-" ++ (GetSHA (GetObject ref)).take 7)
              (GetSHA (GetObject ref)), false⟩,
           ⟨.createFile o n (str ".github/CODEOWNERS") (str "Create CODEOWNERS file")
              (str "* @org/team")
              (str "create-codeowners-" ++ (GetSHA (GetObject ref)).take 7), true⟩], s5⟩) ∧
    -- create_pull_request fails
    (∀ (info : Option Repository) (s2 : σ) (ref : Option Reference) (s3 s4 s5 : σ)
        (pr : Option PullRequest) (e6 : GoError) (s6 : σ),
      client.get s1 o n = ((info, none), s2) →
      client.getRef s2 o n (str "refs/heads/" ++ GetDefaultBranch info) = ((ref, none), s3) →
      7 ≤ (GetSHA (GetObject ref)).length →
      client.createRef s3 o n
        (str "refs/heads/create-codeowners-" ++ (GetSHA (GetObject ref)).take 7)
        (GetSHA (GetObject ref)) = (none, s4) →
      client.createFile s4 o n (str ".github/CODEOWNERS") (str "Create CODEOWNERS file")
        (str "* @org/team") (str "create-codeowners-" ++ (GetSHA (GetObject ref)).take 7) =
          (none, s5) →
      client.createPullRequest s5 o n (str "Add CODEOWNERS file")
        (str "create-codeowners-" ++ (GetSHA (GetObject ref)).take 7) (GetDefaultBranch info)
        prBody = ((pr, some e6), s6) →
      processRepository client s0 repo =
        ⟨.error (str "error creating pull request: " ++ e6),
          [⟨.getContents o n (str ".github/CODEOWNERS"), true⟩,
           ⟨.getRepository o n, false⟩,
           ⟨.getRef o n (str "refs/heads/" ++ GetDefaultBranch info), false⟩,
           ⟨.createRef o n
              (str "refs/heads/create-codeowners-" ++ (GetSHA (GetObject ref)).take 7)
              (GetSHA (GetObject ref)), false⟩,
           ⟨.createFile o n (str ".github/CODEOWNERS") (str "Create CODEOWNERS file")
              (str "* @org/team")
              (str "create-codeowners-" ++ (GetSHA (GetObject ref)).take 7), false⟩,
           ⟨.createPullRequest o n (str "Add CODEOWNERS file")
              (str "create-codeowners-" ++ (GetSHA (GetObject ref)).take 7)
              (GetDefaultBranch info) prBody, true⟩], s6⟩) ∧
    -- nothing but the six operations, in order, is ever invoked
    (processRepository client s0 repo).calls.map Call.op <+:
      [.getContents, .getRepository, .getRef, .createRef, .createFile, .createPullRequest] := by
  have hlen : ¬ (more.length + 1 + 1 + 1 < 3) := by omega
  refine ⟨?_, ?_, ?_, ?_, ?_, ops_initial_part client s0 repo⟩
  · intro info e2 s2 h2
    unfold processRepository
    simp [hparts, hlen, h1, h2]
  · intro info s2 ref e3 s3 h2 h3
    unfold processRepository
    simp [hparts, hlen, h1, h2, h3]
  · intro info s2 ref s3 e4 s4 h2 h3 hsha h4
    unfold processRepository
    simp [hparts, hlen, h1, h2, h3, sliceTo, hsha, newBranchRef_eq, h4]
  · intro info s2 ref s3 s4 e5 s5 h2 h3 hsha h4 h5
    unfold processRepository
    simp [hparts, hlen, h1, h2, h3, sliceTo, hsha, newBranchRef_eq, h4, h5]
  · intro info s2 ref s3 s4 s5 pr e6 s6 h2 h3 hsha h4 h5 h6
    unfold processRepository
    simp [hparts, hlen, h1, h2, h3, sliceTo, hsha, newBranchRef_eq, h4, h5, h6]

/-- On `github.com/acme/widgets` with the file absent: when file creation is
rejected the run returns that error after five operations, and when the
pull request is rejected it returns that error after six; in both the
branch created before stays and nothing is invoked afterwards. -/
theorem C8_witness :
    processRepository
        (scripted notFound (refAt (str "abcdef1234567890")) none (some (str "409 Conflict"))
          samplePR) 0 (str "github.com/acme/widgets") =
      ⟨.error (str "error creating CODEOWNERS file: 409 Conflict"),
        [⟨.getContents (str "acme") (str "widgets") (str ".github/CODEOWNERS"), true⟩,
         ⟨.getRepository (str "acme") (str "widgets"), false⟩,
         ⟨.getRef (str "acme") (str "widgets") (str "refs/heads/main"), false⟩,
         ⟨.createRef (str "acme") (str "widgets") (str "refs/heads/create-codeowners-abcdef1")
            (str "abcdef1234567890"), false⟩,
         ⟨.createFile (str "acme") (str "widgets") (str ".github/CODEOWNERS")
            (str "Create CODEOWNERS file") (str "* @org/team")
            (str "create-codeowners-abcdef1"), true⟩], 5⟩ ∧
    processRepository
        (scripted notFound (refAt (str "abcdef1234567890")) none none
          (none, some (str "422 Validation Failed"))) 0 (str "github.com/acme/widgets") =
      ⟨.error (str "error creating pull request: 422 Validation Failed"),
        [⟨.getContents (str "acme") (str "widgets") (str ".github/CODEOWNERS"), true⟩,
         ⟨.getRepository (str "acme") (str "widgets"), false⟩,
         ⟨.getRef (str "acme") (str "widgets") (str "refs/heads/main"), false⟩,
         ⟨.createRef (str "acme") (str "widgets") (str "refs/heads/create-codeowners-abcdef1")
            (str "abcdef1234567890"), false⟩,
         ⟨.createFile (str "acme") (str "widgets") (str ".github/CODEOWNERS")
            (str "Create CODEOWNERS file") (str "* @org/team")
            (str "create-codeowners-abcdef1"), false⟩,
         ⟨.createPullRequest (str "acme") (str "widgets") (str "Add CODEOWNERS file")
            (str "create-codeowners-abcdef1") (str "main") prBody, true⟩], 6⟩ :=
  ⟨(C8_failed_step_ends_the_run
      (scripted notFound (refAt (str "abcdef1234567890")) none (some (str "409 Conflict"))
        samplePR) 0 1 (str "github.com/acme/widgets") (str "github.com") (str "acme")
      (str "widgets") [] (str "404 Not Found") (by decide) (by decide)).2.2.2.1
      (some ⟨some (str "main")⟩) 2 (refAt (str "abcdef1234567890")) 3 4 (str "409 Conflict") 5
      (by decide) (by decide) (by decide) (by decide) (by decide),
   (C8_failed_step_ends_the_run
      (scripted notFound (refAt (str "abcdef1234567890")) none none
        (none, some (str "422 Validation Failed"))) 0 1 (str "github.com/acme/widgets")
      (str "github.com") (str "acme") (str "widgets") [] (str "404 Not Found") (by decide)
      (by decide)).2.2.2.2.1
      (some ⟨some (str "main")⟩) 2 (refAt (str "abcdef1234567890")) 3 4 5 none
      (str "422 Validation Failed") 6
      (by decide) (by decide) (by decide) (by decide) (by decide) (by decide)⟩

/-! ## The batch -/

/-- There is one run per reference. -/
theorem batchRuns_length {σ : Type} (client : Client σ) (s0 : σ) (repos : List GoString) :
    (batchRuns client s0 repos).length = repos.length := by
  induction repos generalizing s0 with
  | nil => rfl
  | cons repo rest ih => simp [batchRuns, ih]

/-- The loop of `main`, when no run panics: it ends normally, having
processed every reference in order, printed the error lines and collected
the success messages. -/
theorem mainLoop_returned {σ : Type} (client : Client σ) (repos : List GoString) :
    ∀ st : LoopState σ,
      (∀ r ∈ batchRuns client st.world repos, r.outcome.returned = true) →
      (mainLoop client repos st).1 = .normal ∧
      (mainLoop client repos st).2.messages =
        st.messages ++ (batchRuns client st.world repos).filterMap (fun r => successLine r.outcome) ∧
      (mainLoop client repos st).2.stdout =
        st.stdout ++ (batchRuns client st.world repos).filterMap (fun r => errorLine r.outcome) ∧
      (mainLoop client repos st).2.processed = st.processed ++ repos ∧
      (mainLoop client repos st).2.trace =
        st.trace ++ (batchRuns client st.world repos).flatMap Run.trace := by
  induction repos with
  | nil => intro st _; simp [mainLoop, batchRuns]
  | cons repo rest ih =>
    intro st hret
    have hhead : (processRepository client st.world repo).outcome.returned = true :=
      hret _ (by simp [batchRuns])
    have htail : ∀ r ∈ batchRuns client (processRepository client st.world repo).final rest,
        r.outcome.returned = true := fun r hr => hret r (by simp [batchRuns, hr])
    cases hout : (processRepository client st.world repo).outcome with
    | panic p => rw [hout] at hhead; cases hhead
    | error err =>
      have := ih { st with
        processed := st.processed ++ [repo],
        trace := st.trace ++ (processRepository client st.world repo).trace,
        world := (processRepository client st.world repo).final,
        stdout := st.stdout ++ [str "Error processing repository: " ++ err] } htail
      simp only [mainLoop, hout, batchRuns, List.filterMap_cons, successLine, errorLine,
        List.flatMap_cons]
      simpa [List.append_assoc] using this
    | ok msg =>
      have := ih { st with
        processed := st.processed ++ [repo],
        trace := st.trace ++ (processRepository client st.world repo).trace,
        world := (processRepository client st.world repo).final,
        messages := st.messages ++ [msg] } htail
      simp only [mainLoop, hout, batchRuns, List.filterMap_cons, successLine, errorLine,
        List.flatMap_cons]
      simpa [List.append_assoc] using this

/-- C9: for every list of references whose runs all return (a message or an
error), `main` ends normally after invoking `processRepository` once per
reference in list order, whatever failed earlier; its output is one line
`Error processing repository: <error>` per failed reference, in processing
order, followed by the messages of the successful references, one per line,
in processing order; the output has as many lines as there are references;
and the API operations of the batch are those of the runs, in order. -/
theorem C9_batch_output {σ : Type} (client : Client σ) (s0 : σ) (repos : List GoString)
    (hret : ∀ r ∈ batchRuns client s0 repos, r.outcome.returned = true) :
    (main client s0 (.ok repos)).exit = .normal ∧
    (main client s0 (.ok repos)).processed = repos ∧
    (batchRuns client s0 repos).length = repos.length ∧
    (main client s0 (.ok repos)).stdout =
      (batchRuns client s0 repos).filterMap (fun r => errorLine r.outcome) ++
        (batchRuns client s0 repos).filterMap (fun r => successLine r.outcome) ∧
    (main client s0 (.ok repos)).stdout.length = repos.length ∧
    (main client s0 (.ok repos)).trace = (batchRuns client s0 repos).flatMap Run.trace := by
  obtain ⟨hexit, hmsg, hout, hproc, htrace⟩ :=
    mainLoop_returned client repos ⟨[], [], [], [], s0⟩ hret
  have hcount : ∀ runs : List (Run σ), (∀ r ∈ runs, r.outcome.returned = true) →
      (runs.filterMap (fun r => errorLine r.outcome)).length +
        (runs.filterMap (fun r => successLine r.outcome)).length = runs.length := by
    intro runs
    induction runs with
    | nil => intro _; rfl
    | cons r rs ih =>
      intro h
      have hr := h r (by simp)
      have hrs := ih (fun x hx => h x (by simp [hx]))
      cases ho : r.outcome with
      | panic p => rw [ho] at hr; cases hr
      | error err =>
        have e1 : (fun r : Run σ => errorLine r.outcome) r =
            some (str "Error processing repository: " ++ err) := by simp only [ho, errorLine]
        have e2 : (fun r : Run σ => successLine r.outcome) r = none := by
          simp only [ho, successLine]
        rw [@List.filterMap_cons_some _ _ (fun r : Run σ => errorLine r.outcome) r rs _ e1,
          @List.filterMap_cons_none _ _ (fun r : Run σ => successLine r.outcome) r rs e2]
        simp only [List.length_cons]
        omega
      | ok msg =>
        have e1 : (fun r : Run σ => errorLine r.outcome) r = none := by
          simp only [ho, errorLine]
        have e2 : (fun r : Run σ => successLine r.outcome) r = some msg := by
          simp only [ho, successLine]
        rw [@List.filterMap_cons_none _ _ (fun r : Run σ => errorLine r.outcome) r rs e1,
          @List.filterMap_cons_some _ _ (fun r : Run σ => successLine r.outcome) r rs _ e2]
        simp only [List.length_cons]
        omega
  have hmain : main client s0 (.ok repos) =
      ⟨.normal,
        (mainLoop client repos ⟨[], [], [], [], s0⟩).2.stdout ++
          (mainLoop client repos ⟨[], [], [], [], s0⟩).2.messages,
        (mainLoop client repos ⟨[], [], [], [], s0⟩).2.processed,
        (mainLoop client repos ⟨[], [], [], [], s0⟩).2.trace,
        (mainLoop client repos ⟨[], [], [], [], s0⟩).2.world⟩ := by
    simp only [main, hexit]
  rw [hmain, hout, hmsg, hproc, htrace]
  refine ⟨rfl, by simp, batchRuns_length client s0 repos, by simp, ?_, by simp⟩
  simp only [List.nil_append, List.length_append]
  rw [hcount _ hret, batchRuns_length]

/-- A batch of four references, the first and third malformed: both error
lines come first, then the two pull request URLs; four lines in all. -/
theorem C9_witness :
    (main acme 0 (.ok [str "gh/foo", str "github.com/acme/widgets", str "",
        str "github.com/acme/gadgets"])).stdout =
      [str "Error processing repository: invalid repository format",
       str "Error processing repository: invalid repository format",
       str "https://github.com/acme/widgets/pull/1",
       str "https://github.com/acme/widgets/pull/1"] ∧
    (main acme 0 (.ok [str "gh/foo", str "github.com/acme/widgets", str "",
        str "github.com/acme/gadgets"])).processed =
      [str "gh/foo", str "github.com/acme/widgets", str "", str "github.com/acme/gadgets"] ∧
    (main acme 0 (.ok [str "gh/foo", str "github.com/acme/widgets", str "",
        str "github.com/acme/gadgets"])).stdout.length = 4 :=
  have h := C9_batch_output acme 0
    [str "gh/foo", str "github.com/acme/widgets", str "", str "github.com/acme/gadgets"]
    (by decide)
  ⟨by decide, h.2.1, h.2.2.2.2.1⟩

end CodeownersTool
